import Mathlib

/-!
Verification of the meeting-minutes transcription backend
(`app/backend/main.py`, `app/backend/transcribe.py`).

The backend keeps an in-memory `jobs` mapping from job id to a mutable
record with fields `status`, `progress`, `message`, `transcript`, `error`
and `file_path`.  The background task `run_transcription` mutates that
record one field assignment at a time; the poll endpoint
`get_transcription_status` reads it.  We embed the record, the sequence of
field writes performed by `run_transcription` (parameterised by where the
pipeline fails, if anywhere) and the observable intermediate states, and
prove the lifecycle, progress and atomicity properties against them.
-/

namespace Protokoll

/-- A speaker-attributed utterance (`TranscriptLine` in `main.py`). -/
structure TranscriptLine where
  speaker : String
  text : String
  deriving DecidableEq, Repr

/-- The mutable job record stored in `jobs[job_id]` (`main.py` lines 107-114).
`status` is one of the strings "pending", "processing", "completed",
"failed". -/
structure JobRecord where
  status : String
  progress : Nat
  message : String
  transcript : Option (List TranscriptLine)
  error : Option String
  file_path : String
  deriving DecidableEq, Repr

/-- One single-field assignment `jobs[job_id][field] = value`.  In CPython
each such dict-item assignment is atomic, but nothing larger is: the
poller thread can run between any two of them. -/
inductive JobWrite where
  | setStatus (s : String)
  | setProgress (n : Nat)
  | setMessage (m : String)
  | setTranscript (t : Option (List TranscriptLine))
  | setError (e : Option String)
  deriving DecidableEq, Repr

/-- Effect of one field assignment on the record. -/
def applyWrite (r : JobRecord) : JobWrite → JobRecord
  | .setStatus s => { r with status := s }
  | .setProgress n => { r with progress := n }
  | .setMessage m => { r with message := m }
  | .setTranscript t => { r with transcript := t }
  | .setError e => { r with error := e }

/-- Apply a sequence of field assignments in order. -/
def applyWrites (r : JobRecord) (ws : List JobWrite) : JobRecord :=
  ws.foldl applyWrite r

/-- The record created at submission time (`main.py` lines 107-114). -/
def initJob (fp : String) : JobRecord :=
  { status := "pending", progress := 0, message := "Audio hochgeladen",
    transcript := none, error := none, file_path := fp }

/-- The progress checkpoints emitted by `transcribe_audio` through the
`progress_callback`, in order, with their messages
(`transcribe.py` lines 62-131; the first message is shown with the
default model `large-v2`).  Each checkpoint is emitted strictly before
the corresponding external stage call runs. -/
def checkpoints : List (Nat × String) :=
  [(5, "Lade WhisperX Modell (large-v2)..."),
   (15, "Lade Audio..."),
   (25, "Transkription läuft..."),
   (50, "Alignment läuft..."),
   (65, "Sprechererkennung läuft..."),
   (85, "Segmente werden zusammengeführt..."),
   (95, "Transkript wird erstellt...")]

/-- The two field assignments performed by `progress_callback`
(`main.py` lines 184-186). -/
def cpWrites (cp : Nat × String) : List JobWrite :=
  [.setProgress cp.1, .setMessage cp.2]

/-- Outcome of one run of the pipeline inside `transcribe_audio`.
`failsAt = none` means every stage succeeded and `result` is the returned
transcript.  `failsAt = some i` means the i-th call site raised:
site 0 is the `import whisperx` / device setup before any checkpoint,
and site `k+1` is the external call made after checkpoint `k` was
emitted (model load, audio load, transcribe, align, diarization
including the HF_TOKEN precondition check, speaker assignment, final
assembly).  There are 8 such sites. -/
structure PipelineEnv where
  failsAt : Option (Fin 8)
  errMsg : String
  result : List TranscriptLine

/-- Number of checkpoints emitted before the run ends. -/
def stagesRun (env : PipelineEnv) : Nat :=
  match env.failsAt with
  | none => 7
  | some i => i.val

/-- The full ordered sequence of single-field assignments performed on the
job record by `run_transcription` (`main.py` lines 173-205): the
pending-to-processing writes, then the checkpoint writes emitted by
`transcribe_audio` up to the failure point, then the terminal writes of
either the success branch (lines 191-194) or the `except` branch
(lines 203-205). -/
def run_transcription_writes (env : PipelineEnv) : List JobWrite :=
  [.setStatus "processing", .setProgress 10,
   .setMessage "Transkription wird vorbereitet..."]
  ++ (checkpoints.take (stagesRun env)).flatMap cpWrites
  ++ (match env.failsAt with
     | none =>
       [.setStatus "completed", .setProgress 100,
        .setMessage "Transkription abgeschlossen",
        .setTranscript (some env.result)]
     | some _ =>
       [.setStatus "failed", .setError (some env.errMsg),
        .setMessage ("Fehler: " ++ env.errMsg)])

/-- The record as observable by a poller after the first `n` field
assignments of the run have executed (the job was created with source
path `fp`).  Every intermediate state is observable because the store is
a bare dict and the runner takes no lock. -/
def stateAt (env : PipelineEnv) (fp : String) (n : Nat) : JobRecord :=
  applyWrites (initJob fp) ((run_transcription_writes env).take n)

/-- The values written to the `progress` field by a write sequence, in
order. -/
def progressValues (ws : List JobWrite) : List Nat :=
  ws.filterMap fun w => match w with | .setProgress n => some n | _ => none

/-- The progress value last reported before call site `i` raised:
10 for a failure before the first checkpoint, otherwise the preceding
checkpoint value. -/
def lastReported (i : Fin 8) : Nat :=
  match i.val with
  | 0 => 10
  | k + 1 => ((checkpoints.map Prod.fst).getD k 0)

/-! ## Character-level string primitives

The Python `str` methods used by the backend (`strip`, `endswith`,
splitting a file into lines) are modelled on the string's character
list. -/

/-- Python's `str.strip()`: remove leading and trailing whitespace. -/
def pyStrip (s : String) : String :=
  String.mk
    (((s.data.dropWhile Char.isWhitespace).reverse.dropWhile
        Char.isWhitespace).reverse)

/-- Python's falsiness test for a string: empty or not. -/
def pyIsEmpty (s : String) : Bool :=
  s.data.isEmpty

/-- Python's `s.endswith(t)`. -/
def strEndsWith (s t : String) : Bool :=
  t.data.isSuffixOf s.data

/-- Split a character list at every newline character. -/
def splitNl : List Char → List (List Char)
  | [] => [[]]
  | c :: cs =>
    if c = '\n' then [] :: splitNl cs
    else
      match splitNl cs with
      | [] => [[c]]
      | l :: ls => (c :: l) :: ls

/-- The newline-separated lines of a file's contents. -/
def pyLines (s : String) : List String :=
  (splitNl s.data).map String.mk

/-! ## The job store and the HTTP-facing operations -/

/-- The in-memory `jobs` dict (`main.py` line 38), as a partial map from
job id to record. -/
def JobStore : Type := String → Option JobRecord

/-- `jobs[job_id] = record`. -/
def storeInsert (id : String) (r : JobRecord) (σ : JobStore) : JobStore :=
  fun k => if k = id then some r else σ k

/-- The store with no jobs. -/
def emptyStore : JobStore := fun _ => none

/-- The response body of the poll endpoint (`TranscriptionJob` in
`main.py` lines 53-59).  It has no `file_path` field. -/
structure TranscriptionJobResponse where
  job_id : String
  status : String
  progress : Nat
  message : String
  transcript : Option (List TranscriptLine)
  error : Option String
  deriving DecidableEq, Repr

/-- How `get_transcription_status` renders a stored record
(`main.py` lines 136-147).  The transcript is re-serialised only when the
stored value is truthy: Python's `if job["transcript"]` treats both
`None` and the empty list as false, so both render as `null`. -/
def responseOf (id : String) (job : JobRecord) : TranscriptionJobResponse :=
  { job_id := id, status := job.status, progress := job.progress,
    message := job.message,
    transcript := match job.transcript with
      | none => none
      | some [] => none
      | some l => some l,
    error := job.error }

/-- The poll endpoint `GET /api/transcribe/(job_id)`
(`main.py` lines 127-147): 404 on an unknown id, otherwise a pure
rendering of the stored record.  It performs no store mutation. -/
def get_transcription_status (σ : JobStore) (id : String) :
    Except Nat TranscriptionJobResponse :=
  match σ id with
  | none => .error 404
  | some job => .ok (responseOf id job)

/-- An upload as seen by the submission endpoint: the declared content
type and the client-supplied filename. -/
structure UploadRequest where
  content_type : String
  filename : String

/-- The content-type allow-list (`main.py` line 89). -/
def allowed_types : List String :=
  ["audio/mpeg", "audio/wav", "audio/mp4", "audio/x-m4a", "audio/mp3"]

/-- `audio.filename.endswith((".mp3", ".wav", ".m4a"))`. -/
def hasAllowedSuffix (fn : String) : Bool :=
  strEndsWith fn ".mp3" || strEndsWith fn ".wav" || strEndsWith fn ".m4a"

/-- What a successful submission produced: the updated store, the list of
files written to disk, and the response body. -/
structure StartResult where
  store : JobStore
  saved_files : List String
  response : TranscriptionJobResponse

/-- The submission endpoint `POST /api/transcribe`
(`main.py` lines 80-124), with the generated UUID passed in as `jobId`.
The type check runs first: when the declared content type is not in the
allow-list and the filename carries no allowed suffix, a 400 error is
raised before the id is used, before the file is saved and before the
store is touched.  Otherwise the upload is saved, the pending record is
inserted, and the fixed pending response is returned. -/
def start_transcription (req : UploadRequest) (jobId : String)
    (σ : JobStore) : Except Nat StartResult :=
  if !(allowed_types.contains req.content_type) && !(hasAllowedSuffix req.filename) then
    .error 400
  else
    let fp := "uploads/" ++ jobId ++ "_" ++ req.filename
    .ok { store := storeInsert jobId (initJob fp) σ,
          saved_files := [fp],
          response := { job_id := jobId, status := "pending", progress := 0,
                        message := "Transkription gestartet",
                        transcript := none, error := none } }

/-! ## Final transcript assembly (`transcribe.py` lines 133-144) -/

/-- One entry of `result["segments"]` after `assign_word_speakers`: the
`speaker` key may be missing, the `text` key defaults to `""`. -/
structure RawSegment where
  speaker : Option String
  text : String

/-- The assembly loop of `transcribe_audio` (`transcribe.py` lines
133-144): for each segment take `segment.get("speaker", "UNKNOWN")` and
`segment.get("text", "").strip()`, and append a line only when the
stripped text is non-empty. -/
def buildTranscript (segs : List RawSegment) : List TranscriptLine :=
  segs.foldl
    (fun acc seg =>
      let speaker := seg.speaker.getD "UNKNOWN"
      let text := pyStrip seg.text
      if pyIsEmpty text then acc
      else acc ++ [{ speaker := speaker, text := text }])
    []

/-! ## Transcript file parser (`transcribe.py` lines 147-171) -/

/-- `re.match` of the pattern `\[SPEAKER_(\d+)\]:\s*(.+)` against an
(already stripped) line, returning the two groups.  `re.match` anchors at
the start only; `\d+` takes a maximal non-empty digit run (the following
`]` is not a digit, so no backtracking arises there); `\s*` then `(.+)`
succeed exactly when at least one character follows the colon, and by
greediness group 2 starts at the first non-whitespace character when one
exists, else (all-whitespace remainder) backtracking leaves the final
whitespace character as group 2. -/
def matchSpeakerLine (line : List Char) : Option (List Char × List Char) :=
  if ("[SPEAKER_".data).isPrefixOf line then
    let rest := line.drop 9
    let ds := rest.takeWhile Char.isDigit
    if ds.isEmpty then none
    else
      let rest2 := rest.drop ds.length
      if ("]:".data).isPrefixOf rest2 then
        let afterColon := rest2.drop 2
        if afterColon.isEmpty then none
        else
          let t := afterColon.dropWhile Char.isWhitespace
          some (ds, if t.isEmpty then afterColon.reverse.take 1 else t)
      else none
  else none

/-- The loop body of `parse_transcript_file` on one raw line: strip it,
skip it when blank, match the pattern, strip group 2 and skip the line
when that is empty, else produce the line with speaker
`"SPEAKER_" ++ digits`. -/
def lineResult (raw : String) : Option TranscriptLine :=
  let line := (pyStrip raw).data
  if line.isEmpty then none
  else
    match matchSpeakerLine line with
    | none => none
    | some (ds, g2) =>
      let text := pyStrip (String.mk g2)
      if pyIsEmpty text then none
      else some { speaker := "SPEAKER_" ++ String.mk ds, text := text }

/-- The accumulator loop of `parse_transcript_file`
(`transcribe.py` lines 152-171) over the file's lines: per line, run the
loop body `lineResult` and append its produced line, if any, to
`transcript`. -/
def parse_transcript_lines (lines : List String) : List TranscriptLine :=
  lines.foldl
    (fun acc raw =>
      match lineResult raw with
      | none => acc
      | some tl => acc ++ [tl])
    []

/-- `parse_transcript_file` on a file whose contents are `s`: iterating a
text file yields its newline-separated lines. -/
def parse_transcript_text (s : String) : List TranscriptLine :=
  parse_transcript_lines (pyLines s)

/-! ## SpeakerAssigner (segment/diarization merge) -/

/-- A time-bounded ASR utterance.  `stop` models the segment's `end`
time (a Lean keyword); times in seconds, idealised as rationals. -/
structure ASRSegment where
  start : ℚ
  stop : ℚ

/-- A time-bounded diarization interval carrying a speaker label. -/
structure DiarSegment where
  start : ℚ
  stop : ℚ
  speaker : String

/-- Overlap duration of the two half-open intervals. -/
def overlap (a : ASRSegment) (d : DiarSegment) : ℚ :=
  max 0 (min a.stop d.stop - max a.start d.start)

/-- One step of the best-overlap selection: a candidate with zero overlap
never competes; a competing candidate replaces the current best exactly
when it overlaps strictly more, or equally much but starts earlier. -/
def pickStep (a : ASRSegment) (best : Option DiarSegment) (d : DiarSegment) :
    Option DiarSegment :=
  match best with
  | none => if 0 < overlap a d then some d else none
  | some b =>
    if 0 < overlap a d ∧
        (overlap a b < overlap a d ∨
          (overlap a d = overlap a b ∧ d.start < b.start)) then
      some d
    else some b

/-- Modelled from the spec: the merge that resolves an ASR segment to a
speaker is performed in the source by the external call
`whisperx.assign_word_speakers` (`transcribe.py` line 128), whose code is
not part of this repository.  Following the spec's words: select the
diarization segment whose interval has the greatest overlap duration
with the ASR segment's interval, breaking equal-overlap ties by earliest
diarization-segment start time; when no diarization segment overlaps,
assign the sentinel label "UNKNOWN". -/
def assignSpeaker (a : ASRSegment) (ds : List DiarSegment) : String :=
  match ds.foldl (pickStep a) none with
  | none => "UNKNOWN"
  | some d => d.speaker

/-! ## Auxiliary predicates used by the theorems -/

/-- Number of the five poll-visible fields in which two records differ. -/
def fieldsDiff (a b : JobRecord) : Nat :=
  (if a.status = b.status then 0 else 1) +
  (if a.progress = b.progress then 0 else 1) +
  (if a.message = b.message then 0 else 1) +
  (if a.transcript = b.transcript then 0 else 1) +
  (if a.error = b.error then 0 else 1)

/-- The record/status consistency that does hold at every observable
point: transcript and error are never both present, a present transcript
means status "completed", a present error means status "failed",
non-terminal statuses carry neither, "completed" excludes an error and
"failed" excludes a transcript. -/
def goodRecord (s : JobRecord) : Prop :=
  (s.transcript = none ∨ s.error = none) ∧
  (s.transcript ≠ none → s.status = "completed") ∧
  (s.error ≠ none → s.status = "failed") ∧
  (s.status = "pending" ∨ s.status = "processing" →
    s.transcript = none ∧ s.error = none) ∧
  (s.status = "completed" → s.error = none) ∧
  (s.status = "failed" → s.transcript = none)

/-- `goodRecord` holds at the start state and after every prefix of the
write sequence. -/
def allPrefixesGood : JobRecord → List JobWrite → Prop
  | s, [] => goodRecord s
  | s, w :: ws => goodRecord s ∧ allPrefixesGood (applyWrite s w) ws

/-- The per-segment outcome of the assembly loop: drop the segment when
its trimmed text is empty, else keep the trimmed text and default a
missing speaker to "UNKNOWN". -/
def segResult (seg : RawSegment) : Option TranscriptLine :=
  if pyIsEmpty (pyStrip seg.text) then none
  else some { speaker := seg.speaker.getD "UNKNOWN", text := pyStrip seg.text }

/-- Invariant of the best-overlap fold: the accumulator is `none` exactly
while every candidate seen so far has zero overlap, and otherwise holds a
seen candidate of positive, maximal overlap whose start is least among
the maximal ones. -/
def IsBest (a : ASRSegment) (seen : List DiarSegment) :
    Option DiarSegment → Prop
  | none => ∀ d ∈ seen, overlap a d = 0
  | some b => b ∈ seen ∧ 0 < overlap a b ∧
      (∀ d ∈ seen, overlap a d ≤ overlap a b) ∧
      (∀ d ∈ seen, overlap a d = overlap a b → b.start ≤ d.start)

/-! ## Helper lemmas -/

theorem length_filterMap_sub (f : α → Option β) (l : List α) :
    (l.filterMap f).length
      = l.length - (l.filter (fun x => (f x).isNone)).length := by
  induction l with
  | nil => simp
  | cons x xs ih =>
    have hle := List.length_filter_le (fun x => (f x).isNone) xs
    cases h : f x <;> simp [h, ih] <;> omega

theorem buildTranscript_go (segs : List RawSegment) (acc : List TranscriptLine) :
    segs.foldl
      (fun acc seg =>
        let speaker := seg.speaker.getD "UNKNOWN"
        let text := pyStrip seg.text
        if pyIsEmpty text then acc
        else acc ++ [{ speaker := speaker, text := text }]) acc
      = acc ++ segs.filterMap segResult := by
  induction segs generalizing acc with
  | nil => simp
  | cons seg segs ih =>
    by_cases h : pyIsEmpty (pyStrip seg.text) <;>
      simp [List.foldl_cons, segResult, h, ih]

theorem parse_transcript_lines_go (lines : List String)
    (acc : List TranscriptLine) :
    lines.foldl
      (fun acc raw =>
        match lineResult raw with
        | none => acc
        | some tl => acc ++ [tl]) acc
      = acc ++ lines.filterMap lineResult := by
  induction lines generalizing acc with
  | nil => simp
  | cons raw lines ih =>
    cases h : lineResult raw <;> simp [List.foldl_cons, h, ih]

theorem file_path_applyWrites (ws : List JobWrite) (s : JobRecord) :
    (applyWrites s ws).file_path = s.file_path := by
  induction ws generalizing s with
  | nil => rfl
  | cons w ws ih => cases w <;> exact ih _

theorem fieldsDiff_self (a : JobRecord) : fieldsDiff a a = 0 := by
  simp [fieldsDiff]

theorem fieldsDiff_applyWrite (s : JobRecord) (w : JobWrite) :
    fieldsDiff s (applyWrite s w) ≤ 1 := by
  cases w <;> simp [fieldsDiff, applyWrite] <;> split <;> simp

theorem stateAt_succ (env : PipelineEnv) (fp : String) (n : Nat) :
    stateAt env fp (n + 1)
      = match (run_transcription_writes env)[n]? with
        | none => stateAt env fp n
        | some w => applyWrite (stateAt env fp n) w := by
  cases h : (run_transcription_writes env)[n]? with
  | none =>
    have ht : (run_transcription_writes env).take (n + 1)
        = (run_transcription_writes env).take n := by
      rw [List.take_succ, h]; simp
    simp [stateAt, ht]
  | some w =>
    simp only [stateAt, List.take_succ, h, Option.toList_some, applyWrites,
      List.foldl_append, List.foldl_cons, List.foldl_nil]

theorem allPrefixesGood_take (ws : List JobWrite) :
    ∀ s : JobRecord, allPrefixesGood s ws →
      ∀ n, goodRecord (applyWrites s (ws.take n)) := by
  induction ws with
  | nil =>
    intro s h n
    simpa [allPrefixesGood, applyWrites] using h
  | cons w ws ih =>
    intro s h n
    cases n with
    | zero => simpa [applyWrites] using h.1
    | succ n =>
      simpa [applyWrites, List.foldl_cons] using ih (applyWrite s w) h.2 n

theorem progressValues_run (env : PipelineEnv) :
    progressValues (run_transcription_writes env)
      = 10 :: ((checkpoints.take (stagesRun env)).map Prod.fst)
        ++ (match env.failsAt with | none => [100] | some _ => []) := by
  obtain ⟨f, e, r⟩ := env
  cases f with
  | none => rfl
  | some i => fin_cases i <;> rfl

theorem overlap_nonneg (a : ASRSegment) (d : DiarSegment) :
    0 ≤ overlap a d :=
  le_max_left 0 _

theorem pickStep_isBest (a : ASRSegment) (seen : List DiarSegment)
    (acc : Option DiarSegment) (d : DiarSegment)
    (hacc : IsBest a seen acc) :
    IsBest a (seen ++ [d]) (pickStep a acc d) := by
  cases acc with
  | none =>
    by_cases h : 0 < overlap a d
    · rw [pickStep, if_pos h]
      refine ⟨by simp, h, ?_, ?_⟩
      · intro x hx
        rcases List.mem_append.1 hx with hx | hx
        · exact (hacc x hx).le.trans (le_of_lt h)
        · simp only [List.mem_singleton] at hx; subst hx; exact le_rfl
      · intro x hx hov
        rcases List.mem_append.1 hx with hx | hx
        · exact absurd (hov.symm.trans (hacc x hx)) (ne_of_gt h)
        · simp only [List.mem_singleton] at hx; subst hx; exact le_rfl
    · rw [pickStep, if_neg h]
      intro x hx
      rcases List.mem_append.1 hx with hx | hx
      · exact hacc x hx
      · simp only [List.mem_singleton] at hx; subst hx
        exact le_antisymm (not_lt.1 h) (overlap_nonneg a x)
  | some b =>
    obtain ⟨hmem, hpos, hmax, htie⟩ := hacc
    by_cases h : 0 < overlap a d ∧
        (overlap a b < overlap a d ∨
          (overlap a d = overlap a b ∧ d.start < b.start))
    · rw [pickStep, if_pos h]
      refine ⟨by simp, h.1, ?_, ?_⟩
      · intro x hx
        rcases List.mem_append.1 hx with hx | hx
        · rcases h.2 with hlt | ⟨heq, _⟩
          · exact (hmax x hx).trans (le_of_lt hlt)
          · have hx2 := hmax x hx
            rw [← heq] at hx2
            exact hx2
        · simp only [List.mem_singleton] at hx; subst hx; exact le_rfl
      · intro x hx hov
        rcases List.mem_append.1 hx with hx | hx
        · rcases h.2 with hlt | ⟨heq, hst⟩
          · have hx2 := hmax x hx
            rw [hov] at hx2
            exact absurd hx2 (not_le.2 hlt)
          · exact le_of_lt (lt_of_lt_of_le hst (htie x hx (hov.trans heq)))
        · simp only [List.mem_singleton] at hx; subst hx; exact le_rfl
    · rw [pickStep, if_neg h]
      refine ⟨List.mem_append_left _ hmem, hpos, ?_, ?_⟩
      · intro x hx
        rcases List.mem_append.1 hx with hx | hx
        · exact hmax x hx
        · simp only [List.mem_singleton] at hx; subst hx
          by_cases hd : 0 < overlap a x
          · rcases not_and_or.1 h with hc | hc
            · exact absurd hd hc
            · exact not_lt.1 (not_or.1 hc).1
          · exact (not_lt.1 hd).trans (le_of_lt hpos)
      · intro x hx hov
        rcases List.mem_append.1 hx with hx | hx
        · exact htie x hx hov
        · simp only [List.mem_singleton] at hx; subst hx
          by_cases hd : 0 < overlap a x
          · rcases not_and_or.1 h with hc | hc
            · exact absurd hd hc
            · rcases not_and_or.1 (not_or.1 hc).2 with hc3 | hc3
              · exact absurd hov hc3
              · exact not_lt.1 hc3
          · have h0 : overlap a x = 0 :=
              le_antisymm (not_lt.1 hd) (overlap_nonneg a x)
            rw [h0] at hov
            exact absurd hov.symm (ne_of_gt hpos)

theorem foldl_pickStep_isBest_pre (a : ASRSegment) (ds : List DiarSegment)
    (seen : List DiarSegment) (acc : Option DiarSegment)
    (hacc : IsBest a seen acc) :
    IsBest a (seen ++ ds) (ds.foldl (pickStep a) acc) := by
  induction ds generalizing seen acc with
  | nil => simpa using hacc
  | cons d ds ih =>
    have hstep := pickStep_isBest a seen acc d hacc
    have := ih (seen ++ [d]) (pickStep a acc d) hstep
    simpa [List.append_assoc] using this

theorem foldl_pickStep_isBest (a : ASRSegment) (ds : List DiarSegment) :
    IsBest a ds (ds.foldl (pickStep a) none) := by
  have h := foldl_pickStep_isBest_pre a ds [] none
    (fun d hd => absurd hd (List.not_mem_nil d))
  simpa using h

/-! ## Claims -/

/-- C1 (counterexample): the progress writes of a successful run, starting
from the created record's 0, are NOT non-decreasing: `run_transcription`
writes 10 at the pending-to-processing transition and the first stage
checkpoint then writes 5. -/
theorem C1_counterexample :
    ¬ List.Chain' (fun a b => a ≤ b)
      (0 :: progressValues (run_transcription_writes ⟨none, "", []⟩)) := by
  rw [progressValues_run]
  simp [stagesRun, checkpoints, List.chain'_cons]

/-- C1 (amended): every adjacent pair of progress writes of a job run,
from the created record's 0 through the terminal write, is
non-decreasing, EXCEPT the single pair where the pending-to-processing
value 10 is followed by the first stage checkpoint 5.  This holds for
every pipeline outcome. -/
theorem C1_progress_writes (env : PipelineEnv) :
    List.Chain' (fun a b => a ≤ b ∨ (a = 10 ∧ b = 5))
      (0 :: progressValues (run_transcription_writes env)) := by
  rw [progressValues_run]
  obtain ⟨f, e, r⟩ := env
  cases f with
  | none => simp [stagesRun, checkpoints, List.chain'_cons]
  | some i => fin_cases i <;> simp [stagesRun, checkpoints, List.chain'_cons]

/-- C2 (counterexample): mid-way through the terminal transition of a
successful run — after `jobs[job_id]["status"] = "completed"`
(`main.py` line 191) but before the transcript write (line 194) — a
poller observes status "completed" with `transcript` absent, refuting
"status completed implies transcript is present" at that point of the
lifecycle. -/
theorem C2_counterexample :
    (stateAt ⟨none, "", [{ speaker := "SPEAKER_00", text := "Hallo" }]⟩ "f" 18).status
        = "completed" ∧
    (stateAt ⟨none, "", [{ speaker := "SPEAKER_00", text := "Hallo" }]⟩ "f" 18).transcript
        = none :=
  ⟨rfl, rfl⟩

/-- C2 (amended): at every observable point of a job's lifecycle, at most
one of `transcript` and `error` is present; a present transcript implies
status "completed" and a present error implies status "failed"; statuses
"pending" and "processing" imply both absent; status "completed" implies
`error` absent and status "failed" implies `transcript` absent.  (The
converses for the terminal statuses fail only between the status write
and the result-field write of the terminal transition.) -/
theorem C2_lifecycle_invariant (env : PipelineEnv) (fp : String) (n : Nat) :
    goodRecord (stateAt env fp n) := by
  apply allPrefixesGood_take
  obtain ⟨f, e, r⟩ := env
  cases f with
  | none =>
    simp [run_transcription_writes, stagesRun, checkpoints, cpWrites,
      allPrefixesGood, applyWrite, goodRecord, initJob]
  | some i =>
    fin_cases i <;>
      simp [run_transcription_writes, stagesRun, checkpoints, cpWrites,
        allPrefixesGood, applyWrite, goodRecord, initJob]

/-- C3: the merge assigns to an ASR segment the speaker of the
diarization segment of maximal overlap duration, breaking equal-overlap
ties by earliest start; a segment overlapping no diarization segment gets
"UNKNOWN"; and on the spec's example — ASR [0,10) against [0,6) "A" and
[6,12) "B" — the assignment is "A". -/
theorem C3_speaker_assignment :
    (∀ (a : ASRSegment) (ds : List DiarSegment),
        (∀ d ∈ ds, overlap a d = 0) → assignSpeaker a ds = "UNKNOWN") ∧
    (∀ (a : ASRSegment) (ds : List DiarSegment) (d0 : DiarSegment),
        d0 ∈ ds → 0 < overlap a d0 →
        ∃ d ∈ ds, assignSpeaker a ds = d.speaker ∧ 0 < overlap a d ∧
          (∀ x ∈ ds, overlap a x ≤ overlap a d) ∧
          (∀ x ∈ ds, overlap a x = overlap a d → d.start ≤ x.start)) ∧
    assignSpeaker ⟨0, 10⟩ [⟨0, 6, "A"⟩, ⟨6, 12, "B"⟩] = "A" := by
  refine ⟨?_, ?_, ?_⟩
  · intro a ds h
    have hb := foldl_pickStep_isBest a ds
    cases hfold : ds.foldl (pickStep a) none with
    | none => simp [assignSpeaker, hfold]
    | some b =>
      rw [hfold] at hb
      obtain ⟨hmem, hpos, -, -⟩ := hb
      exact absurd (h b hmem) (ne_of_gt hpos)
  · intro a ds d0 hd0 hpos0
    have hb := foldl_pickStep_isBest a ds
    cases hfold : ds.foldl (pickStep a) none with
    | none =>
      rw [hfold] at hb
      exact absurd (hb d0 hd0) (ne_of_gt hpos0)
    | some b =>
      rw [hfold] at hb
      obtain ⟨hmem, hpos, hmax, htie⟩ := hb
      exact ⟨b, hmem, by simp [assignSpeaker, hfold], hpos, hmax, htie⟩
  · have hb := foldl_pickStep_isBest ⟨0, 10⟩ [⟨0, 6, "A"⟩, ⟨6, 12, "B"⟩]
    cases hfold : List.foldl (pickStep ⟨0, 10⟩) none
        [⟨0, 6, "A"⟩, ⟨6, 12, "B"⟩] with
    | none =>
      rw [hfold] at hb
      have h0 := hb ⟨0, 6, "A"⟩ (by simp)
      norm_num [overlap, min_def, max_def] at h0
    | some b =>
      rw [hfold] at hb
      obtain ⟨hmem, hpos, hmax, -⟩ := hb
      simp only [List.mem_cons, List.not_mem_nil, or_false] at hmem
      rcases hmem with hb1 | hb2
      · simp [assignSpeaker, hfold, hb1]
      · exfalso
        have h6 := hmax ⟨0, 6, "A"⟩ (by simp)
        rw [hb2] at h6
        norm_num [overlap, min_def, max_def] at h6

/-- C3 (witness): the selection properties applied to concrete inputs —
a segment with no diarization overlap gets "UNKNOWN", and on the spec's
example the maximal-overlap segment [0,6) "A" is selected. -/
theorem C3_witness :
    assignSpeaker ⟨0, 10⟩ [] = "UNKNOWN" ∧
    (∃ d ∈ ([⟨0, 6, "A"⟩, ⟨6, 12, "B"⟩] : List DiarSegment),
        assignSpeaker ⟨0, 10⟩ [⟨0, 6, "A"⟩, ⟨6, 12, "B"⟩] = d.speaker ∧
        0 < overlap ⟨0, 10⟩ d ∧
        (∀ x ∈ ([⟨0, 6, "A"⟩, ⟨6, 12, "B"⟩] : List DiarSegment),
          overlap ⟨0, 10⟩ x ≤ overlap ⟨0, 10⟩ d) ∧
        (∀ x ∈ ([⟨0, 6, "A"⟩, ⟨6, 12, "B"⟩] : List DiarSegment),
          overlap ⟨0, 10⟩ x = overlap ⟨0, 10⟩ d → d.start ≤ x.start)) :=
  ⟨C3_speaker_assignment.1 ⟨0, 10⟩ [] (by simp),
   C3_speaker_assignment.2.1 ⟨0, 10⟩ [⟨0, 6, "A"⟩, ⟨6, 12, "B"⟩] ⟨0, 6, "A"⟩
     (by simp) (by norm_num [overlap])⟩

/-- C4: the final transcript assembly maps the speaker-assigned segments,
in order, to lines with the trimmed text and the speaker defaulted to
"UNKNOWN" when absent, dropping exactly the segments whose trimmed text
is empty; hence the output cardinality is the input cardinality minus
the number of empty-after-trimming segments. -/
theorem C4_transcript_assembly (segs : List RawSegment) :
    buildTranscript segs = segs.filterMap segResult ∧
    (buildTranscript segs).length
      = segs.length
        - (segs.filter (fun s => pyIsEmpty (pyStrip s.text))).length := by
  have h1 : buildTranscript segs = segs.filterMap segResult := by
    simpa [buildTranscript] using buildTranscript_go segs []
  have h2 : segs.filter (fun x => (segResult x).isNone)
      = segs.filter (fun s => pyIsEmpty (pyStrip s.text)) := by
    apply List.filter_congr
    intro s _
    by_cases h : pyIsEmpty (pyStrip s.text) <;> simp [segResult, h]
  exact ⟨h1, by rw [h1, length_filterMap_sub, h2]⟩

/-- C5: the transcript parser maps the input lines, in order, through the
per-line contract `lineResult` (match `[SPEAKER_(digits)]: text`, trim,
silently skip blank, non-matching and empty-text lines); in particular
the spec's example input yields exactly the two lines
(SPEAKER_01, "Hello world") and (SPEAKER_01, "Second"). -/
theorem C5_parse_transcript :
    (∀ lines : List String,
        parse_transcript_lines lines = lines.filterMap lineResult) ∧
    parse_transcript_text
        "[SPEAKER_01]: Hello world\n\n[SPEAKER_02]:  \nnot a match line\n[SPEAKER_01]: Second"
      = [{ speaker := "SPEAKER_01", text := "Hello world" },
         { speaker := "SPEAKER_01", text := "Second" }] := by
  constructor
  · intro lines
    simpa [parse_transcript_lines] using parse_transcript_lines_go lines []
  · decide

/-- C6: when the pipeline raises at any call site, the run ends with
status "failed", the error field and message carrying the failure detail,
no transcript, and progress left at the last reported value; the
checkpoint writes of the remaining stages never happen (the progress
write sequence is exactly 10 followed by the checkpoints already
emitted), and in particular progress is neither reset nor forced
to 100. -/
theorem C6_failure_path (env : PipelineEnv) (fp : String) (i : Fin 8)
    (h : env.failsAt = some i) :
    (applyWrites (initJob fp) (run_transcription_writes env)).status = "failed" ∧
    (applyWrites (initJob fp) (run_transcription_writes env)).error
        = some env.errMsg ∧
    (applyWrites (initJob fp) (run_transcription_writes env)).message
        = "Fehler: " ++ env.errMsg ∧
    (applyWrites (initJob fp) (run_transcription_writes env)).transcript = none ∧
    (applyWrites (initJob fp) (run_transcription_writes env)).progress
        = lastReported i ∧
    progressValues (run_transcription_writes env)
        = 10 :: (checkpoints.take i.val).map Prod.fst ∧
    100 ∉ progressValues (run_transcription_writes env) := by
  obtain ⟨f, e, r⟩ := env
  simp only [PipelineEnv.failsAt] at h
  subst h
  fin_cases i <;>
    simp [run_transcription_writes, stagesRun, checkpoints, cpWrites,
      applyWrites, applyWrite, initJob, progressValues, lastReported,
      List.foldl_cons, List.foldl_nil]

/-- C6 (witness): the failure theorem applied to a run that raises at
call site 3 (the alignment stage, after checkpoint 25) with error
"x". -/
theorem C6_witness :
    (applyWrites (initJob "f") (run_transcription_writes ⟨some 3, "x", []⟩)).status
        = "failed" ∧
    (applyWrites (initJob "f") (run_transcription_writes ⟨some 3, "x", []⟩)).error
        = some "x" ∧
    (applyWrites (initJob "f") (run_transcription_writes ⟨some 3, "x", []⟩)).message
        = "Fehler: " ++ "x" ∧
    (applyWrites (initJob "f") (run_transcription_writes ⟨some 3, "x", []⟩)).transcript
        = none ∧
    (applyWrites (initJob "f") (run_transcription_writes ⟨some 3, "x", []⟩)).progress
        = lastReported 3 ∧
    progressValues (run_transcription_writes ⟨some 3, "x", []⟩)
        = 10 :: (checkpoints.take (3 : Fin 8).val).map Prod.fst ∧
    100 ∉ progressValues (run_transcription_writes ⟨some 3, "x", []⟩) :=
  C6_failure_path ⟨some 3, "x", []⟩ "f" 3 rfl

/-- C7 (counterexample): reads and updates of a job record are NOT atomic
as a whole: after the `except` branch's status write but before its error
write (`main.py` lines 203-204), a poller observes status "failed"
together with an absent error and the stale preparing message — an
inconsistent snapshot mid-update. -/
theorem C7_counterexample :
    (stateAt ⟨some 0, "oops", []⟩ "g" 4).status = "failed" ∧
    (stateAt ⟨some 0, "oops", []⟩ "g" 4).error = none ∧
    (stateAt ⟨some 0, "oops", []⟩ "g" 4).message
        = "Transkription wird vorbereitet..." :=
  ⟨rfl, rfl, rfl⟩

/-- C7 (amended): atomicity holds only at single-field granularity: any
two successive states observable by a poller differ in at most one of
the fields status, progress, message, transcript, error, and the stored
file path never changes after creation; whole-record transitions are not
atomic (a record can be observed between the field writes of one
transition). -/
theorem C7_field_granularity (env : PipelineEnv) (fp : String) (n : Nat) :
    fieldsDiff (stateAt env fp n) (stateAt env fp (n + 1)) ≤ 1 ∧
    (stateAt env fp n).file_path = fp := by
  constructor
  · cases h : (run_transcription_writes env)[n]? with
    | none => simp [stateAt_succ, h, fieldsDiff_self]
    | some w => simp [stateAt_succ, h, fieldsDiff_applyWrite]
  · simpa [stateAt, initJob] using
      file_path_applyWrites ((run_transcription_writes env).take n) (initJob fp)

/-- C8: a submission whose declared content type is outside the
allow-list and whose filename carries none of the allowed suffixes is
rejected with a 400 error before job creation: no store entry is made,
no file is saved and no response carrying a job id is produced. -/
theorem C8_invalid_upload_rejected (req : UploadRequest) (jobId : String)
    (σ : JobStore)
    (hct : allowed_types.contains req.content_type = false)
    (hfn : hasAllowedSuffix req.filename = false) :
    start_transcription req jobId σ = Except.error 400 := by
  have hct2 : ¬ req.content_type ∈ allowed_types := by simpa using hct
  simp [start_transcription, hct, hfn, hct2]

/-- C8 (witness): a text upload with a `.txt` filename is rejected. -/
theorem C8_witness :
    allowed_types.contains "text/plain" = false ∧
    hasAllowedSuffix "evil.txt" = false ∧
    start_transcription ⟨"text/plain", "evil.txt"⟩ "job-1" emptyStore
        = Except.error 400 :=
  ⟨by decide, by decide,
   C8_invalid_upload_rejected ⟨"text/plain", "evil.txt"⟩ "job-1" emptyStore
     (by decide) (by decide)⟩

/-- C9 (counterexample): a job can be polled with a terminal status while
the rest of the terminal transition is still being written, so two
successive polls of a job already showing status "failed" need not be
identical: the poll right after the status write differs from the poll
after the subsequent error write. -/
theorem C9_counterexample :
    (stateAt ⟨some 2, "boom", []⟩ "f" 8).status = "failed" ∧
    responseOf "j" (stateAt ⟨some 2, "boom", []⟩ "f" 8)
      ≠ responseOf "j" (stateAt ⟨some 2, "boom", []⟩ "f" 9) := by
  refine ⟨rfl, ?_⟩
  intro h
  have := congrArg TranscriptionJobResponse.error h
  simp [stateAt, run_transcription_writes, stagesRun, checkpoints, cpWrites,
    applyWrites, applyWrite, initJob, responseOf] at this

/-- C9 (amended): the poll operation never mutates the record, and once
the runner's write sequence has completed the record is frozen: any two
observation points at or beyond the end of the write sequence yield the
same record and hence identical poll snapshots.  Mid-transition polls
(between the terminal status write and the result-field writes) are the
only exception. -/
theorem C9_terminal_snapshots (env : PipelineEnv) (fp id : String)
    (m n : Nat)
    (hm : (run_transcription_writes env).length ≤ m)
    (hn : (run_transcription_writes env).length ≤ n) :
    stateAt env fp m = stateAt env fp n ∧
    responseOf id (stateAt env fp m) = responseOf id (stateAt env fp n) := by
  have h : stateAt env fp m = stateAt env fp n := by
    unfold stateAt
    rw [List.take_of_length_le hm, List.take_of_length_le hn]
  exact ⟨h, by rw [h]⟩

/-- C9 (witness): two polls of a finished successful run (after all 21
writes) return identical snapshots. -/
theorem C9_witness :
    (run_transcription_writes ⟨none, "", []⟩).length ≤ 30 ∧
    (run_transcription_writes ⟨none, "", []⟩).length ≤ 31 ∧
    stateAt ⟨none, "", []⟩ "f" 30 = stateAt ⟨none, "", []⟩ "f" 31 ∧
    responseOf "j" (stateAt ⟨none, "", []⟩ "f" 30)
      = responseOf "j" (stateAt ⟨none, "", []⟩ "f" 31) := by
  refine ⟨by decide, by decide, ?_⟩
  exact C9_terminal_snapshots ⟨none, "", []⟩ "f" "j" 30 31 (by decide) (by decide)

/-- C10: the poll response is a function of the record's status,
progress, message, transcript and error fields (plus the id in the URL)
only: two stored records agreeing on those five fields but differing in
`file_path` produce identical poll responses, so the internal file path
is never disclosed to a poller. -/
theorem C10_poll_ignores_file_path (σ : JobStore) (id : String)
    (r1 r2 : JobRecord)
    (h1 : r1.status = r2.status) (h2 : r1.progress = r2.progress)
    (h3 : r1.message = r2.message) (h4 : r1.transcript = r2.transcript)
    (h5 : r1.error = r2.error) :
    get_transcription_status (storeInsert id r1 σ) id
      = get_transcription_status (storeInsert id r2 σ) id := by
  simp [get_transcription_status, storeInsert, responseOf, h1, h2, h3, h4, h5]

/-- C10 (witness): two completed records that differ only in the stored
upload path poll identically. -/
theorem C10_witness :
    get_transcription_status
        (storeInsert "j"
          { status := "completed", progress := 100, message := "fertig",
            transcript := some [], error := none,
            file_path := "uploads/j_a.mp3" } emptyStore) "j"
      = get_transcription_status
          (storeInsert "j"
            { status := "completed", progress := 100, message := "fertig",
              transcript := some [], error := none,
              file_path := "uploads/j_b.mp3" } emptyStore) "j" :=
  C10_poll_ignores_file_path emptyStore "j" _ _ rfl rfl rfl rfl rfl

end Protokoll
